import Mathlib

/-!
Verification of the amd-smi-wrapper crate (src/src/lib.rs, src/src/utils.rs)
against its natural-language specification. The native AMD-SMI library is
external: every native call is modelled by an explicit oracle value (the
status code it returns and the data it writes), and each wrapper operation
becomes a pure Lean function of that oracle, faithful to the Rust control
flow. Machine integers are modelled as Nat with explicit wraparound where
overflow matters.
-/

namespace AmdSmiWrapper

/-!
Native status code constants. The numeric values come from the vendor header
`include/amdsmi.h`, which build.rs feeds to bindgen; the header is part of the
repository but not under src/. Modelled from the spec: the spec (section 4.5)
lists the explicitly recognized subset (success, invalid argument, not
supported, out-of-resources, no-permission, not-yet-implemented,
unexpected-data) and says many more named codes exist; the concrete values
below follow the public AMD SMI header enumeration. The claims depend only on
these codes being pairwise distinct.
-/

def CODE_SUCCESS : Nat := 0

def CODE_INVAL : Nat := 1

def CODE_NOT_SUPPORTED : Nat := 2

def CODE_NOT_YET_IMPLEMENTED : Nat := 3

def CODE_TIMEOUT : Nat := 8

def CODE_NO_PERM : Nat := 10

def CODE_OUT_OF_RESSOURCE : Nat := 15

def CODE_UNEXPECTED_DATA : Nat := 44

deriving instance DecidableEq for Except

/-- Status taxonomy from utils.rs (`enum AmdStatus`): the closed set of
outcome codes the wrapper exposes. -/
inductive AmdStatus where
  | Success
  | Inval
  | NotSupported
  | NotYetImplemented
  | FailLoadModule
  | FailLoadSymbol
  | DrmError
  | ApiFailed
  | Timeout
  | Retry
  | NoPerm
  | Interrupt
  | Io
  | AddressFault
  | FileError
  | OutOfResources
  | InternalException
  | InputOutOfBounds
  | InitError
  | RefcountOverflow
  | DirectoryNotFound
  | Busy
  | NotFound
  | NotInit
  | NoSlot
  | DriverNotLoaded
  | MoreData
  | NoData
  | InsufficientSize
  | UnexpectedSize
  | UnexpectedData
  | NonAmdCpu
  | NoEnergyDrv
  | NoMsrDrv
  | NoHsmpDrv
  | NoHsmpSup
  | NoHsmpMsgSup
  | HsmpTimeout
  | NoDrv
  | FileNotFound
  | ArgPtrNull
  | AmdgpuRestartErr
  | SettingUnavailable
  | CorruptedEeprom
  | MapError
  | UnknownError
deriving DecidableEq, Repr

/-- Runtime conversion from a raw native status integer, from utils.rs
(`impl From<amdsmi_status_t> for AmdStatus`): only seven codes are
recognized explicitly, everything else collapses to `UnknownError`. -/
def AmdStatus.fromRaw (status : Nat) : AmdStatus :=
  if status = CODE_SUCCESS then .Success
  else if status = CODE_INVAL then .Inval
  else if status = CODE_NOT_SUPPORTED then .NotSupported
  else if status = CODE_OUT_OF_RESSOURCE then .OutOfResources
  else if status = CODE_NO_PERM then .NoPerm
  else if status = CODE_NOT_YET_IMPLEMENTED then .NotYetImplemented
  else if status = CODE_UNEXPECTED_DATA then .UnexpectedData
  else .UnknownError

/-- Error wrapper from lib.rs (`pub struct AmdError(pub AmdStatus)`). -/
structure AmdError where
  status : AmdStatus
deriving DecidableEq, Repr

/-- Status check from lib.rs (`fn check_status`): success becomes `Ok(())`,
anything else becomes `Err(AmdError(status))`. -/
def check_status (status : Nat) : Except AmdError Unit :=
  let s := AmdStatus.fromRaw status
  if s = AmdStatus.Success then Except.ok ()
  else Except.error (AmdError.mk s)

/-- Helper: list of the seven raw codes the conversion recognizes. -/
def recognizedCodes : List Nat :=
  [CODE_SUCCESS, CODE_INVAL, CODE_NOT_SUPPORTED, CODE_OUT_OF_RESSOURCE,
   CODE_NO_PERM, CODE_NOT_YET_IMPLEMENTED, CODE_UNEXPECTED_DATA]

/-- C5. The runtime conversion maps exactly the seven recognized native codes
(success, invalid argument, not supported, out-of-resources, no-permission,
not-yet-implemented, unexpected-data) to their named outcomes, and every
other raw code, including codes that do have a named variant in the
enumeration, such as the timeout code, to the generic `UnknownError`. -/
theorem status_conversion_recognizes_exactly_seven :
    (AmdStatus.fromRaw CODE_SUCCESS = .Success ∧
     AmdStatus.fromRaw CODE_INVAL = .Inval ∧
     AmdStatus.fromRaw CODE_NOT_SUPPORTED = .NotSupported ∧
     AmdStatus.fromRaw CODE_OUT_OF_RESSOURCE = .OutOfResources ∧
     AmdStatus.fromRaw CODE_NO_PERM = .NoPerm ∧
     AmdStatus.fromRaw CODE_NOT_YET_IMPLEMENTED = .NotYetImplemented ∧
     AmdStatus.fromRaw CODE_UNEXPECTED_DATA = .UnexpectedData) ∧
    (∀ c : Nat, c ∉ recognizedCodes → AmdStatus.fromRaw c = .UnknownError) ∧
    AmdStatus.fromRaw CODE_TIMEOUT = .UnknownError := by
  refine ⟨⟨?_, ?_, ?_, ?_, ?_, ?_, ?_⟩, ?_, ?_⟩ <;>
    first
    | decide
    | · intro c hc
        simp only [recognizedCodes, List.mem_cons, List.not_mem_nil, or_false,
          not_or] at hc
        obtain ⟨h1, h2, h3, h4, h5, h6, h7⟩ := hc
        simp [AmdStatus.fromRaw, h1, h2, h3, h4, h5, h6, h7]

/-- Witness for C5: the timeout raw code 8 is not among the recognized seven
and converts to the generic unknown outcome. -/
theorem status_conversion_recognizes_exactly_seven_witness :
    CODE_TIMEOUT ∉ recognizedCodes ∧ AmdStatus.fromRaw CODE_TIMEOUT = .UnknownError :=
  ⟨by decide, status_conversion_recognizes_exactly_seven.2.1 CODE_TIMEOUT (by decide)⟩

/-!
Lifecycle model. `AmdSmi` is shared behind an `Arc`; every derived
`AmdSocketHandle` and `AmdProcessorHandle` holds an `Arc` clone. We track the
strong reference count and the number of times the native
`amdsmi_shut_down` entry point has been invoked.
-/

/-- Reference-counting state of one loaded library instance: the number of
live `Arc<AmdSmi>` references and how many times `amdsmi_shut_down` has
been invoked so far. -/
structure LibState where
  refCount : Nat
  shutdownCalls : Nat
deriving DecidableEq, Repr

/-- State right after a successful `AmdSmi::init`: one `Arc` reference, no
shutdown yet. -/
def initState : LibState :=
  { refCount := 1, shutdownCalls := 0 }

/-- Releasing one `Arc<AmdSmi>` reference. When the last reference goes away
`Drop for AmdSmi` (lib.rs lines 63-70) runs and calls
`amdsmi_shut_down` once. -/
def releaseRef (s : LibState) : LibState :=
  if s.refCount = 1 then
    { refCount := 0, shutdownCalls := s.shutdownCalls + 1 }
  else
    { refCount := s.refCount - 1, shutdownCalls := s.shutdownCalls }

/-- Deriving a handle clones the `Arc` (lib.rs `Arc::clone(self)` in
`socket_handles` and `Arc::clone(&self.amdsmi)` in `processor_handles`). -/
def cloneRef (s : LibState) : LibState :=
  { refCount := s.refCount + 1, shutdownCalls := s.shutdownCalls }

/-- `AmdInterface::stop` (lib.rs lines 103-109): it first invokes
`amdsmi_shut_down` explicitly through the `Arc`, then the consumed
`self : Arc<AmdSmi>` goes out of scope, releasing one reference (which can
itself trigger `Drop for AmdSmi`). -/
def stopCall (s : LibState) : LibState :=
  releaseRef { refCount := s.refCount, shutdownCalls := s.shutdownCalls + 1 }

/-- One lifecycle event: deriving a handle (Arc clone), dropping a handle or
the library reference (Arc release), or calling `stop` on a library
reference. -/
inductive LifeEvent where
  | derive
  | drop
  | stop
deriving DecidableEq, Repr

/-- Run a sequence of lifecycle events from a state. -/
def runEvents (s : LibState) : List LifeEvent → LibState
  | [] => s
  | LifeEvent.derive :: rest => runEvents (cloneRef s) rest
  | LifeEvent.drop :: rest => runEvents (releaseRef s) rest
  | LifeEvent.stop :: rest => runEvents (stopCall s) rest

/-- Helper for C1: dropping all `n` live references, one by one in any
interleaving order (every drop is the same operation on the counter), from a
state with `n` references and no shutdown yet ends with zero references and
exactly one shutdown call. -/
theorem drops_only_shutdown_once (n : Nat) (s : LibState)
    (hn : s.refCount = n) (h0 : s.shutdownCalls = 0) (hpos : 0 < n) :
    runEvents s (List.replicate n LifeEvent.drop)
      = { refCount := 0, shutdownCalls := 1 } := by
  induction n generalizing s with
  | zero => exact absurd hpos (by simp)
  | succ m ih =>
    cases m with
    | zero =>
      simp [List.replicate, runEvents, releaseRef, hn, h0]
    | succ k =>
      have hstep : releaseRef s
          = { refCount := k + 1, shutdownCalls := 0 } := by
        simp only [releaseRef, hn, h0]
        norm_num
      simp only [List.replicate, runEvents, hstep]
      exact ih _ rfl rfl (Nat.succ_pos k)

/-- C1 (code bug). The claim says releasing all handles, whether by dropping
them in any order or by calling `stop()` on the last library reference,
invokes the native shutdown entry point exactly once. Dropping alone does
invoke it exactly once (first conjunct: derive two handles, then drop all
three references in some order). But `stop()` on the last reference invokes
it twice: once explicitly inside `stop` and once again in `Drop for AmdSmi`
when the consumed `Arc` releases the final reference (second and third
conjuncts). -/
theorem stop_on_last_reference_shuts_down_twice :
    (runEvents initState
        [LifeEvent.derive, LifeEvent.derive, LifeEvent.drop, LifeEvent.drop,
         LifeEvent.drop]).shutdownCalls = 1 ∧
    (runEvents initState [LifeEvent.stop]).shutdownCalls = 2 ∧
    (runEvents initState
        [LifeEvent.derive, LifeEvent.drop, LifeEvent.stop]).shutdownCalls = 2 := by
  decide

/-!
Initialization model, from `AmdSmi::init` (lib.rs lines 74-86). Loading the
shared library through libloading either succeeds or fails (the dynamic
loader is external, so it is an oracle input); on success the native
`amdsmi_init` is called with the flag bitmask and its status checked.
-/

/-- Outcome of `libamd_smi::new(LIB_PATH)`: the dynamic library loads with
all required symbols, or the loader reports an error. -/
inductive LoadResult where
  | ok
  | err
deriving DecidableEq, Repr

/-- Error type of `init`, from lib.rs `enum AmdInitError`: `Init` wraps the
checked native status, `Load` wraps the loader failure. -/
inductive AmdInitError where
  | Init (e : AmdError)
  | Load
deriving DecidableEq, Repr

/-- `AmdSmi::init` (lib.rs lines 74-86): load the library (`Load` error on
failure), call native `amdsmi_init(flags)` and check its status (`Init` error
on non-success), otherwise return the fresh shared instance. The returned
`LibState` models the `Arc::new` result: one reference, no shutdown. -/
def amdSmiInit (load : LoadResult) (initStatus : Nat) :
    Except AmdInitError LibState :=
  match load with
  | .err => Except.error AmdInitError.Load
  | .ok =>
    match check_status initStatus with
    | .error e => Except.error (AmdInitError.Init e)
    | .ok _ => Except.ok initState

/-- C8. `init` returns a `Load` error when the library cannot be loaded or a
symbol is missing; an `Init` error carrying the converted native status when
the library loads but native init does not report success; and the fresh
shared instance when both steps succeed. -/
theorem init_error_taxonomy (load : LoadResult) (s : Nat) :
    (load = .err → amdSmiInit load s = Except.error AmdInitError.Load) ∧
    (load = .ok → AmdStatus.fromRaw s ≠ .Success →
      amdSmiInit load s
        = Except.error (AmdInitError.Init (AmdError.mk (AmdStatus.fromRaw s)))) ∧
    (load = .ok → AmdStatus.fromRaw s = .Success →
      amdSmiInit load s = Except.ok initState) := by
  refine ⟨?_, ?_, ?_⟩
  · intro h; subst h; rfl
  · intro h hs; subst h
    simp [amdSmiInit, check_status, hs]
  · intro h hs; subst h
    simp [amdSmiInit, check_status, hs]

/-- Witness for C8: a loader failure yields `Load`; a loaded library whose
native init reports the timeout code yields `Init` carrying the converted
status; a loaded library whose native init reports success yields the shared
instance. -/
theorem init_error_taxonomy_witness :
    amdSmiInit LoadResult.err 0 = Except.error AmdInitError.Load ∧
    amdSmiInit LoadResult.ok CODE_TIMEOUT
      = Except.error (AmdInitError.Init (AmdError.mk AmdStatus.UnknownError)) ∧
    amdSmiInit LoadResult.ok CODE_SUCCESS = Except.ok initState :=
  ⟨(init_error_taxonomy LoadResult.err 0).1 rfl,
   (init_error_taxonomy LoadResult.ok CODE_TIMEOUT).2.1 rfl (by decide),
   (init_error_taxonomy LoadResult.ok CODE_SUCCESS).2.2 rfl (by decide)⟩

/-!
Enumeration model, from `AmdInterface::socket_handles` (lib.rs lines 112-145)
and `SocketHandle::processor_handles` (lib.rs lines 160-197). Both use the
exact two-call shape: a sizing call with a null buffer, then a fill call with
a buffer sized to the first count. The native side of each call is an oracle:
the returned raw status, the count it writes back, and (for the fill call)
the handle tokens it writes into the buffer. The shared library instance is
modelled by a `Nat` identifier: every derived handle stores the identifier of
the `Arc` target it clones.
-/

/-- Response of a sizing call (null buffer): the raw status and the count the
native library writes into the count variable. -/
structure CountProbe where
  status : Nat
  count : Nat
deriving DecidableEq, Repr

/-- Response of a fill call: the raw status, the updated count, and the
tokens the native library writes into the provided buffer (in order). -/
structure FillResponse where
  status : Nat
  count : Nat
  tokens : List Nat
deriving DecidableEq, Repr

/-- Handle from lib.rs (`struct AmdSocketHandle`): a shared reference to the
library instance (modelled by its identifier) plus the opaque native socket
token. -/
structure AmdSocketHandle where
  amdsmi : Nat
  inner : Nat
deriving DecidableEq, Repr

/-- Handle from lib.rs (`struct AmdProcessorHandle`): a shared reference to
the library instance plus the opaque native processor token. -/
structure AmdProcessorHandle where
  amdsmi : Nat
  inner : Nat
deriving DecidableEq, Repr

/-- Contents of the zero-initialized buffer of `n` slots after the native
fill call wrote `tokens` into it (at most `n` of them; remaining slots keep
their zeroed value). -/
def filledBuffer (n : Nat) (tokens : List Nat) : List Nat :=
  tokens.take n ++ List.replicate (n - tokens.length) 0

/-- `AmdInterface::socket_handles` (lib.rs lines 112-145): sizing call, check
status; allocate a zeroed vector of `probe.count` slots; fill call, check
status; truncate to the fill call's count; wrap each remaining token with a
clone of the library reference. Returns the result together with the number
of native calls issued. -/
def socket_handles (lib : Nat) (probe : CountProbe) (fill : FillResponse) :
    Except AmdError (List AmdSocketHandle) × Nat :=
  match check_status probe.status with
  | .error e => (Except.error e, 1)
  | .ok _ =>
    match check_status fill.status with
    | .error e => (Except.error e, 2)
    | .ok _ =>
      let buf := filledBuffer probe.count fill.tokens
      let trunc := buf.take fill.count
      (Except.ok (trunc.map fun t => AmdSocketHandle.mk lib t), 2)

/-- `SocketHandle::processor_handles` (lib.rs lines 160-197): the same
two-call shape scoped to the socket token; each processor handle clones the
socket's library reference (`Arc::clone(&self.amdsmi)`). -/
def processor_handles (sock : AmdSocketHandle) (probe : CountProbe)
    (fill : FillResponse) :
    Except AmdError (List AmdProcessorHandle) × Nat :=
  match check_status probe.status with
  | .error e => (Except.error e, 1)
  | .ok _ =>
    match check_status fill.status with
    | .error e => (Except.error e, 2)
    | .ok _ =>
      let buf := filledBuffer probe.count fill.tokens
      let trunc := buf.take fill.count
      (Except.ok (trunc.map fun t => AmdProcessorHandle.mk sock.amdsmi t), 2)

/-- Helper: the filled buffer always has exactly `n` slots, whatever the
native library wrote. -/
theorem filledBuffer_length (n : Nat) (tokens : List Nat) :
    (filledBuffer n tokens).length = n := by
  simp only [filledBuffer, List.length_append, List.length_take,
    List.length_replicate]
  omega

/-- C2 (counterexample). The claim says that when the sizing probe reports 0
sockets, `socket_handles()` returns an empty sequence and does not issue the
second native fill call. The code has no early return on a zero count: with
a successful probe reporting 0, the function still issues the second call
(2 native calls, not 1), even though the result is indeed empty. -/
theorem socket_handles_zero_probe_still_issues_fill :
    socket_handles 7 (CountProbe.mk CODE_SUCCESS 0)
        (FillResponse.mk CODE_SUCCESS 0 [])
      = (Except.ok [], 2) ∧
    (socket_handles 7 (CountProbe.mk CODE_SUCCESS 0)
        (FillResponse.mk CODE_SUCCESS 0 [])).2 ≠ 1 := by
  decide

/-- C2 (amended). When the sizing probe reports success with count 0,
`socket_handles()` does issue the second native fill call; if that call also
reports success the function returns an empty sequence (whatever count the
fill call writes back), after 2 native calls. -/
theorem socket_handles_zero_probe_empty_after_two_calls
    (lib : Nat) (probe : CountProbe) (fill : FillResponse)
    (hp : AmdStatus.fromRaw probe.status = .Success)
    (hc : probe.count = 0)
    (hf : AmdStatus.fromRaw fill.status = .Success) :
    socket_handles lib probe fill = (Except.ok [], 2) := by
  simp [socket_handles, check_status, hp, hf, hc, filledBuffer]

/-- Witness for the amended C2: a successful probe reporting 0 with a
successful fill reporting 3 yields an empty result after 2 native calls. -/
theorem socket_handles_zero_probe_empty_after_two_calls_witness :
    AmdStatus.fromRaw CODE_SUCCESS = .Success ∧
    socket_handles 7 (CountProbe.mk CODE_SUCCESS 0)
        (FillResponse.mk CODE_SUCCESS 3 [5, 6, 7])
      = (Except.ok [], 2) :=
  ⟨by decide,
   socket_handles_zero_probe_empty_after_two_calls 7
     (CountProbe.mk CODE_SUCCESS 0) (FillResponse.mk CODE_SUCCESS 3 [5, 6, 7])
     (by decide) rfl (by decide)⟩

/-- C3. In the exact two-call shape of both `socket_handles` and
`processor_handles`, when the sizing call reports `n1` and the fill call
reports `n2`, both with success status, the result contains exactly
`min n1 n2` handles, each holding a shared reference to the same library
instance the parent handle refers to; in particular when `n1 = n2 = N` the
result has exactly `N` handles. -/
theorem two_call_enumeration_truncates_to_min
    (lib : Nat) (sock : AmdSocketHandle) (probe : CountProbe)
    (fill : FillResponse)
    (hp : AmdStatus.fromRaw probe.status = .Success)
    (hf : AmdStatus.fromRaw fill.status = .Success) :
    (∃ hs, socket_handles lib probe fill = (Except.ok hs, 2) ∧
      hs.length = min probe.count fill.count ∧
      (∀ h ∈ hs, h.amdsmi = lib) ∧
      (probe.count = fill.count → hs.length = fill.count)) ∧
    (∃ ps, processor_handles sock probe fill = (Except.ok ps, 2) ∧
      ps.length = min probe.count fill.count ∧
      (∀ h ∈ ps, h.amdsmi = sock.amdsmi) ∧
      (probe.count = fill.count → ps.length = fill.count)) := by
  have hlen : ((filledBuffer probe.count fill.tokens).take fill.count).length
      = min probe.count fill.count := by
    simp [List.length_take, filledBuffer_length, Nat.min_comm]
  constructor
  · refine ⟨((filledBuffer probe.count fill.tokens).take fill.count).map
        (fun t => AmdSocketHandle.mk lib t), ?_, ?_, ?_, ?_⟩
    · simp [socket_handles, check_status, hp, hf]
    · simpa using hlen
    · intro h hmem
      simp only [List.mem_map] at hmem
      obtain ⟨t, _, rfl⟩ := hmem
      rfl
    · intro heq
      rw [List.length_map, hlen, heq, Nat.min_self]
  · refine ⟨((filledBuffer probe.count fill.tokens).take fill.count).map
        (fun t => AmdProcessorHandle.mk sock.amdsmi t), ?_, ?_, ?_, ?_⟩
    · simp [processor_handles, check_status, hp, hf]
    · simpa using hlen
    · intro h hmem
      simp only [List.mem_map] at hmem
      obtain ⟨t, _, rfl⟩ := hmem
      rfl
    · intro heq
      rw [List.length_map, hlen, heq, Nat.min_self]

/-- Witness for C3: a probe reporting 3 and a fill reporting 2 successes
yield exactly 2 socket handles, all sharing library instance 7. -/
theorem two_call_enumeration_truncates_to_min_witness :
    AmdStatus.fromRaw CODE_SUCCESS = .Success ∧
    (∃ hs, socket_handles 7 (CountProbe.mk CODE_SUCCESS 3)
        (FillResponse.mk CODE_SUCCESS 2 [10, 11, 12]) = (Except.ok hs, 2) ∧
      hs.length = min 3 2 ∧ (∀ h ∈ hs, h.amdsmi = 7) ∧
      (3 = 2 → hs.length = 2)) :=
  ⟨by decide,
   (two_call_enumeration_truncates_to_min 7 (AmdSocketHandle.mk 7 1)
     (CountProbe.mk CODE_SUCCESS 3) (FillResponse.mk CODE_SUCCESS 2 [10, 11, 12])
     (by decide) (by decide)).1⟩

/-!
Growing-buffer retrieval, from `ProcessorHandle::device_process_list`
(lib.rs lines 444-503). The probe call (null buffer) tolerates both success
and out-of-resources; a zero count short-circuits to an empty list; then the
loop re-calls with a buffer of the current estimate until success. Each
native call of the loop is an oracle response consumed in order; since the
Rust loop is unbounded, the model returns `none` when the supplied finite
response sequence is exhausted before the loop exits. Process-info records
are modelled as opaque `Nat` payloads.
-/

/-- Response of one fill call of the process-list loop: the raw status, the
count written back, and the records written into the buffer. -/
structure ProcResponse where
  status : Nat
  count : Nat
  entries : List Nat
deriving DecidableEq, Repr

/-- Loop of `device_process_list` (lib.rs lines 468-502): with the current
estimate `maxp`, allocate a buffer of `maxp` slots and call; on success,
keep the first `count` written records (`set_len(count)`); on
out-of-resources, adopt the returned count as the new estimate and retry;
on any other status, abort with the error. `calls` accumulates the number of
native calls issued so far. -/
def process_loop (maxp : Nat) (resps : List ProcResponse) (calls : Nat) :
    Option (Except AmdError (List Nat) × Nat) :=
  match resps with
  | [] => none
  | r :: rest =>
    let s := AmdStatus.fromRaw r.status
    if s = .Success then some (Except.ok (r.entries.take r.count), calls + 1)
    else if s = .OutOfResources then process_loop r.count rest (calls + 1)
    else some (Except.error (AmdError.mk s), calls + 1)

/-- `ProcessorHandle::device_process_list` (lib.rs lines 444-503): probe with
a null buffer, accepting success or out-of-resources and aborting on any
other status; return an empty list immediately when the probed count is 0;
otherwise run the growing-buffer loop seeded with the probed count. The
second component counts native calls (the probe is call number 1). -/
def device_process_list (probe : CountProbe) (resps : List ProcResponse) :
    Option (Except AmdError (List Nat) × Nat) :=
  let s := AmdStatus.fromRaw probe.status
  if s = .Success ∨ s = .OutOfResources then
    if probe.count = 0 then some (Except.ok [], 1)
    else process_loop probe.count resps 1
  else some (Except.error (AmdError.mk s), 1)

/-- C4. The growing-buffer protocol of `device_process_list`: with a probe
reporting insufficient capacity with count 2, a first fill reporting
insufficient capacity with count 5, and a second fill reporting success with
count 5, the function returns exactly the 5 records of the final fill after
exactly 3 native calls (first conjunct). In general, inside the loop an
insufficient-capacity response makes its returned count the new buffer
estimate, a success response truncates the buffer to its returned count and
stops, and any other status aborts with the converted error (remaining
conjuncts). -/
theorem process_list_growing_buffer (maxp calls : Nat) (r : ProcResponse)
    (rest : List ProcResponse) :
    (device_process_list (CountProbe.mk CODE_OUT_OF_RESSOURCE 2)
        [ProcResponse.mk CODE_OUT_OF_RESSOURCE 5 [1, 2],
         ProcResponse.mk CODE_SUCCESS 5 [21, 22, 23, 24, 25]]
      = some (Except.ok [21, 22, 23, 24, 25], 3)) ∧
    (AmdStatus.fromRaw r.status = .OutOfResources →
      process_loop maxp (r :: rest) calls
        = process_loop r.count rest (calls + 1)) ∧
    (AmdStatus.fromRaw r.status = .Success →
      process_loop maxp (r :: rest) calls
        = some (Except.ok (r.entries.take r.count), calls + 1)) ∧
    (AmdStatus.fromRaw r.status ≠ .Success →
      AmdStatus.fromRaw r.status ≠ .OutOfResources →
      process_loop maxp (r :: rest) calls
        = some (Except.error (AmdError.mk (AmdStatus.fromRaw r.status)),
            calls + 1)) := by
  refine ⟨by decide, ?_, ?_, ?_⟩
  · intro h
    simp [process_loop, h]
  · intro h
    simp [process_loop, h]
  · intro h1 h2
    simp only [process_loop, if_neg h1, if_neg h2]

/-- Witness for C4: instantiating the loop-step conjuncts at concrete
responses with the out-of-resources, success, and timeout status codes. -/
theorem process_list_growing_buffer_witness :
    process_loop 2 [ProcResponse.mk CODE_OUT_OF_RESSOURCE 5 [], ProcResponse.mk CODE_SUCCESS 5 [9]] 1
      = process_loop 5 [ProcResponse.mk CODE_SUCCESS 5 [9]] 2 ∧
    process_loop 5 [ProcResponse.mk CODE_SUCCESS 2 [9, 8, 7]] 2
      = some (Except.ok [9, 8], 3) ∧
    process_loop 5 [ProcResponse.mk CODE_TIMEOUT 0 []] 2
      = some (Except.error (AmdError.mk AmdStatus.UnknownError), 3) :=
  ⟨(process_list_growing_buffer 2 1 (ProcResponse.mk CODE_OUT_OF_RESSOURCE 5 [])
      [ProcResponse.mk CODE_SUCCESS 5 [9]]).2.1 (by decide),
   (process_list_growing_buffer 5 2 (ProcResponse.mk CODE_SUCCESS 2 [9, 8, 7])
      []).2.2.1 (by decide),
   (process_list_growing_buffer 5 2 (ProcResponse.mk CODE_TIMEOUT 0 [])
      []).2.2.2 (by decide) (by decide)⟩

/-!
UUID retrieval, from `ProcessorHandle::device_uuid` (lib.rs lines 250-283).
The buffer is a fixed-capacity `Vec<c_char>` initialized to zeros; the native
call writes bytes into it and writes the actual length back into the length
variable. Bytes are modelled as `Nat` values below 256 (the `c_char`
signedness does not change which bytes are equal to zero or how they decode).
-/

/-- Fixed UUID buffer capacity `AMDSMI_GPU_UUID_SIZE` from the vendor header
fed to bindgen. -/
def AMDSMI_GPU_UUID_SIZE : Nat := 39

/-- Modulus of the 32-bit length variable (`uuid_length : u32`). -/
def U32_MOD : Nat := 4294967296

/-- Validity of a UTF-8 continuation byte (0x80 to 0xBF). -/
def isCont (b : Nat) : Bool :=
  decide (0x80 ≤ b) && decide (b ≤ 0xBF)

/-- UTF-8 well-formedness of a byte sequence, as checked by Rust
`str::from_utf8` inside `CStr::to_str` (Unicode well-formed byte patterns,
Table 3-7). -/
def isValidUTF8 : List Nat → Bool
  | [] => true
  | b :: bs =>
    if b ≤ 0x7F then isValidUTF8 bs
    else if 0xC2 ≤ b ∧ b ≤ 0xDF then
      match bs with
      | c1 :: bs1 => isCont c1 && isValidUTF8 bs1
      | [] => false
    else if b = 0xE0 then
      match bs with
      | c1 :: c2 :: bs2 =>
        (decide (0xA0 ≤ c1) && decide (c1 ≤ 0xBF)) && isCont c2 &&
          isValidUTF8 bs2
      | _ => false
    else if (0xE1 ≤ b ∧ b ≤ 0xEC) ∨ b = 0xEE ∨ b = 0xEF then
      match bs with
      | c1 :: c2 :: bs2 => isCont c1 && isCont c2 && isValidUTF8 bs2
      | _ => false
    else if b = 0xED then
      match bs with
      | c1 :: c2 :: bs2 =>
        (decide (0x80 ≤ c1) && decide (c1 ≤ 0x9F)) && isCont c2 &&
          isValidUTF8 bs2
      | _ => false
    else if b = 0xF0 then
      match bs with
      | c1 :: c2 :: c3 :: bs3 =>
        (decide (0x90 ≤ c1) && decide (c1 ≤ 0xBF)) && isCont c2 && isCont c3 &&
          isValidUTF8 bs3
      | _ => false
    else if 0xF1 ≤ b ∧ b ≤ 0xF3 then
      match bs with
      | c1 :: c2 :: c3 :: bs3 =>
        isCont c1 && isCont c2 && isCont c3 && isValidUTF8 bs3
      | _ => false
    else if b = 0xF4 then
      match bs with
      | c1 :: c2 :: c3 :: bs3 =>
        (decide (0x80 ≤ c1) && decide (c1 ≤ 0x8F)) && isCont c2 && isCont c3 &&
          isValidUTF8 bs3
      | _ => false
    else false

/-- Outcome of one `device_uuid` call: a panic (integer underflow in debug
builds, out-of-bounds index either way), an error, or the decoded text,
represented by its byte sequence (the string returned by `to_owned` is the
UTF-8 decoding of exactly these bytes). -/
inductive UuidOutcome where
  | panic
  | err (e : AmdError)
  | ok (bytes : List Nat)
deriving DecidableEq, Repr

/-- `ProcessorHandle::device_uuid` (lib.rs lines 250-283): check the native
status; read the byte at index `uuid_length - 1` (the `u32` subtraction
wraps in release builds and already aborts in debug builds, and an index at
or beyond the buffer length aborts with a panic in both); if that byte is the
null terminator, decode the buffer directly as a C string (bytes up to the
first null), otherwise copy the reported-length prefix into a scratch buffer
of capacity `AMDSMI_GPU_UUID_SIZE + 1`, append a terminator at the prefix
end, and decode that. Text decoding fails exactly when the bytes before the
first null are not valid UTF-8; the error then carries the converted status
of the native call that produced the bytes. -/
def device_uuid (status : Nat) (buffer : List Nat) (reportedLen : Nat) :
    UuidOutcome :=
  match check_status status with
  | .error e => UuidOutcome.err e
  | .ok _ =>
    let idx := (reportedLen + (U32_MOD - 1)) % U32_MOD
    if hidx : idx < buffer.length then
      if buffer.get ⟨idx, hidx⟩ = 0 then
        let bytes := buffer.takeWhile (fun b => b ≠ 0)
        if isValidUTF8 bytes then UuidOutcome.ok bytes
        else UuidOutcome.err (AmdError.mk (AmdStatus.fromRaw status))
      else
        let cstr := ((buffer.take reportedLen) ++
          List.replicate (AMDSMI_GPU_UUID_SIZE + 1 - reportedLen) 0).set
            reportedLen 0
        let bytes := cstr.takeWhile (fun b => b ≠ 0)
        if isValidUTF8 bytes then UuidOutcome.ok bytes
        else UuidOutcome.err (AmdError.mk (AmdStatus.fromRaw status))
    else UuidOutcome.panic

/-- Helper: the wrapped `u32` computation `len - 1` for a positive in-range
length is the ordinary predecessor. -/
theorem u32_pred_eq (len : Nat) (h1 : 1 ≤ len) (h2 : len < U32_MOD) :
    (len + (U32_MOD - 1)) % U32_MOD = len - 1 := by
  have hsplit : len + (U32_MOD - 1) = (len - 1) + U32_MOD := by
    simp only [U32_MOD]; omega
  rw [hsplit, Nat.add_mod_right, Nat.mod_eq_of_lt]
  omega

/-- C10. When the native UUID call reports success but writes back a length
of 0 or a length larger than the fixed buffer capacity, `device_uuid`
panics (via integer underflow of the 32-bit length in debug builds, or the
out-of-bounds read of the byte at index `length - 1`) instead of returning
a result. -/
theorem device_uuid_panics_on_bad_length
    (status : Nat) (buffer : List Nat) (len : Nat)
    (hs : AmdStatus.fromRaw status = .Success)
    (hbuf : buffer.length = AMDSMI_GPU_UUID_SIZE)
    (hlen : len < U32_MOD)
    (hbad : len = 0 ∨ AMDSMI_GPU_UUID_SIZE < len) :
    device_uuid status buffer len = UuidOutcome.panic := by
  have hcs : check_status status = Except.ok () := by
    simp [check_status, hs]
  have hidx : ¬ (len + (U32_MOD - 1)) % U32_MOD < buffer.length := by
    rcases hbad with h0 | hlarge
    · subst h0
      rw [Nat.zero_add, Nat.mod_eq_of_lt (by simp [U32_MOD])]
      simp only [hbuf, AMDSMI_GPU_UUID_SIZE, U32_MOD]
      omega
    · rw [u32_pred_eq len (by simp only [AMDSMI_GPU_UUID_SIZE] at hlarge; omega)
        hlen]
      simp only [hbuf, AMDSMI_GPU_UUID_SIZE] at hlarge ⊢
      omega
  simp only [device_uuid, hcs, dif_neg hidx]

/-- Witness for C10: a successful native call reporting length 0 over a
zeroed 39-byte buffer panics, as does one reporting length 40. -/
theorem device_uuid_panics_on_bad_length_witness :
    AmdStatus.fromRaw CODE_SUCCESS = .Success ∧
    device_uuid CODE_SUCCESS (List.replicate 39 0) 0 = UuidOutcome.panic ∧
    device_uuid CODE_SUCCESS (List.replicate 39 0) 40 = UuidOutcome.panic :=
  ⟨by decide,
   device_uuid_panics_on_bad_length CODE_SUCCESS (List.replicate 39 0) 0
     (by decide) (by decide) (by norm_num [U32_MOD]) (Or.inl rfl),
   device_uuid_panics_on_bad_length CODE_SUCCESS (List.replicate 39 0) 40
     (by decide) (by decide) (by norm_num [U32_MOD]) (Or.inr (by decide))⟩

/-- Helper: a C-string scan (`takeWhile` on nonzero bytes) over a null-free
prefix followed by a null byte returns exactly that prefix. -/
theorem takeWhile_prefix_zero (l1 l2 : List Nat) (hall : ∀ x ∈ l1, x ≠ 0) :
    (l1 ++ 0 :: l2).takeWhile (fun b => b ≠ 0) = l1 := by
  rw [List.takeWhile_append_of_pos (by intro a ha; simpa using hall a ha)]
  simp

/-- Helper: evaluation of `device_uuid` on a successful status and an
in-range positive reported length: the wrapped index computation is the plain
predecessor and the dependent bounds check passes. -/
theorem device_uuid_eval (status : Nat) (buffer : List Nat) (len : Nat)
    (hs : AmdStatus.fromRaw status = .Success)
    (h1 : 1 ≤ len) (hlen : len < U32_MOD)
    (hlt : len - 1 < buffer.length) :
    device_uuid status buffer len =
      if buffer.get ⟨len - 1, hlt⟩ = 0 then
        (if isValidUTF8 (buffer.takeWhile (fun b => b ≠ 0)) then
          UuidOutcome.ok (buffer.takeWhile (fun b => b ≠ 0))
        else UuidOutcome.err (AmdError.mk (AmdStatus.fromRaw status)))
      else
        (let cstr := ((buffer.take len) ++
          List.replicate (AMDSMI_GPU_UUID_SIZE + 1 - len) 0).set len 0
        if isValidUTF8 (cstr.takeWhile (fun b => b ≠ 0)) then
          UuidOutcome.ok (cstr.takeWhile (fun b => b ≠ 0))
        else UuidOutcome.err (AmdError.mk (AmdStatus.fromRaw status))) := by
  have hcs : check_status status = Except.ok () := by
    simp [check_status, hs]
  have hidx : (len + (U32_MOD - 1)) % U32_MOD = len - 1 :=
    u32_pred_eq len h1 hlen
  simp only [device_uuid, hcs, hidx, dif_pos hlt]

/-- C6 (counterexample). The claim says that on success, when the buffer is
already null-terminated at the reported length, the decoded text equals the
bytes preceding that terminator, and otherwise equals the reported-length
prefix. The C-string scan stops at the first null byte, so a null embedded
before the reported length makes the decoded text shorter than claimed: with
reported length 4 over the buffer starting 65, 0, 66, 0 the decode yields
just the byte 65 and not the three bytes before the terminator, and with the
buffer starting 65, 0, 66, 67 it also yields just 65 and not the full
4-byte prefix. -/
theorem device_uuid_embedded_null_counterexample :
    (device_uuid CODE_SUCCESS (65 :: 0 :: 66 :: 0 :: List.replicate 35 0) 4
        = UuidOutcome.ok [65] ∧
      (65 :: 0 :: 66 :: 0 :: List.replicate 35 0).take 3 ≠ [65]) ∧
    (device_uuid CODE_SUCCESS (65 :: 0 :: 66 :: 67 :: List.replicate 35 0) 4
        = UuidOutcome.ok [65] ∧
      (65 :: 0 :: 66 :: 67 :: List.replicate 35 0).take 4 ≠ [65]) := by
  decide

/-- C6 (amended). On success with an in-range reported length, the decoded
text equals the bytes up to the first null byte: when the byte at index
`length - 1` is null and no null occurs before it, this is exactly the bytes
preceding that terminator, and when the byte at index `length - 1` is not
null and no null occurs in the reported-length prefix, a terminator is
synthesized and the decoded text is exactly the reported-length prefix
(in both cases provided those bytes decode as valid text). -/
theorem device_uuid_decodes_to_first_null (status : Nat) (buffer : List Nat)
    (len : Nat)
    (hs : AmdStatus.fromRaw status = .Success)
    (hbuf : buffer.length = AMDSMI_GPU_UUID_SIZE)
    (h1 : 1 ≤ len) (h2 : len ≤ AMDSMI_GPU_UUID_SIZE)
    (hlt : len - 1 < buffer.length) :
    (buffer.get ⟨len - 1, hlt⟩ = 0 →
      (∀ x ∈ buffer.take (len - 1), x ≠ 0) →
      isValidUTF8 (buffer.take (len - 1)) = true →
      device_uuid status buffer len = UuidOutcome.ok (buffer.take (len - 1))) ∧
    (buffer.get ⟨len - 1, hlt⟩ ≠ 0 →
      (∀ x ∈ buffer.take len, x ≠ 0) →
      isValidUTF8 (buffer.take len) = true →
      device_uuid status buffer len = UuidOutcome.ok (buffer.take len)) := by
  have hlen : len < U32_MOD := lt_of_le_of_lt h2 (by decide)
  have heval := device_uuid_eval status buffer len hs h1 hlen hlt
  constructor
  · intro hterm hall hvalid
    have hdecomp : buffer
        = buffer.take (len - 1) ++ 0 :: buffer.drop len := by
      have hsucc : len - 1 + 1 = len := by omega
      have hget : buffer[len - 1] = 0 := by
        rw [List.get_eq_getElem] at hterm
        exact hterm
      conv_lhs => rw [← List.take_append_drop (len - 1) buffer]
      rw [List.drop_eq_getElem_cons hlt, hsucc, hget]
    have hscan : buffer.takeWhile (fun b => b ≠ 0) = buffer.take (len - 1) := by
      conv_lhs => rw [hdecomp]
      exact takeWhile_prefix_zero _ _ hall
    rw [heval, if_pos hterm, hscan, if_pos hvalid]
  · intro hterm hall hvalid
    have htl : (buffer.take len).length = len := by
      rw [List.length_take, hbuf]
      omega
    have hrep : AMDSMI_GPU_UUID_SIZE + 1 - len
        = (AMDSMI_GPU_UUID_SIZE - len) + 1 := by
      simp only [AMDSMI_GPU_UUID_SIZE] at h2 ⊢
      omega
    have hset : ((buffer.take len) ++
          List.replicate (AMDSMI_GPU_UUID_SIZE + 1 - len) 0).set len 0
        = buffer.take len ++ 0 :: List.replicate (AMDSMI_GPU_UUID_SIZE - len) 0 := by
      rw [hrep, List.replicate_succ,
        List.set_append_right _ _ (le_of_eq htl), htl, Nat.sub_self]
      rfl
    have hscan : (((buffer.take len) ++
          List.replicate (AMDSMI_GPU_UUID_SIZE + 1 - len) 0).set len 0).takeWhile
            (fun b => b ≠ 0)
        = buffer.take len := by
      rw [hset]
      exact takeWhile_prefix_zero _ _ hall
    rw [heval, if_neg hterm]
    simp only [hscan, if_pos hvalid]

/-- Witness for the amended C6: a buffer holding the two bytes 104, 105
followed by a terminator with reported length 3 decodes to exactly those two
bytes, and a buffer holding 104, 105, 106 with reported length 3 and a
nonzero byte at index 2 decodes to exactly that 3-byte prefix. -/
theorem device_uuid_decodes_to_first_null_witness :
    device_uuid CODE_SUCCESS (104 :: 105 :: 0 :: List.replicate 36 0) 3
      = UuidOutcome.ok [104, 105] ∧
    device_uuid CODE_SUCCESS (104 :: 105 :: 106 :: List.replicate 36 0) 3
      = UuidOutcome.ok [104, 105, 106] := by
  constructor
  · have h := (device_uuid_decodes_to_first_null CODE_SUCCESS
      (104 :: 105 :: 0 :: List.replicate 36 0) 3 (by decide) (by decide)
      (by decide) (by decide) (by decide)).1 (by decide) (by decide) (by decide)
    simpa using h
  · have h := (device_uuid_decodes_to_first_null CODE_SUCCESS
      (104 :: 105 :: 106 :: List.replicate 36 0) 3 (by decide) (by decide)
      (by decide) (by decide) (by decide)).2 (by decide) (by decide) (by decide)
    simpa using h

/-- C7. When the native UUID call reports success but the retrieved bytes do
not decode as valid text, `device_uuid` returns an error whose payload is
the converted status of the very call that produced the bytes, which is the
success status, rather than a dedicated decode-failure kind. -/
theorem device_uuid_decode_failure_carries_call_status
    (status : Nat) (buffer : List Nat) (len : Nat) (e : AmdError)
    (hs : AmdStatus.fromRaw status = .Success)
    (h : device_uuid status buffer len = UuidOutcome.err e) :
    e = AmdError.mk (AmdStatus.fromRaw status) ∧ e.status = AmdStatus.Success := by
  have hcs : check_status status = Except.ok () := by
    simp [check_status, hs]
  simp only [device_uuid, hcs] at h
  split at h
  · split at h
    · split at h
      · exact absurd h (by simp)
      · cases h
        exact ⟨rfl, by simp [hs]⟩
    · split at h
      · exact absurd h (by simp)
      · cases h
        exact ⟨rfl, by simp [hs]⟩
  · exact absurd h (by simp)

/-- Witness for C7: a buffer starting with the invalid byte 255 followed by a
terminator, with reported length 2, fails to decode and yields an error
carrying the converted success status. -/
theorem device_uuid_decode_failure_carries_call_status_witness :
    device_uuid CODE_SUCCESS (255 :: 0 :: List.replicate 37 0) 2
      = UuidOutcome.err (AmdError.mk AmdStatus.Success) ∧
    (AmdError.mk AmdStatus.Success).status = AmdStatus.Success :=
  ⟨by decide,
   (device_uuid_decode_failure_carries_call_status CODE_SUCCESS
     (255 :: 0 :: List.replicate 37 0) 2 (AmdError.mk AmdStatus.Success)
     (by decide) (by decide)).2⟩

/-!
Single-shot telemetry queries (lib.rs lines 285-441). Each one passes output
storage to a native entry point, checks the returned status, and only then
exposes the storage. The value the native call writes is an oracle input;
native output structures are modelled as opaque `Nat` payloads (for the
energy query, the three written fields, with the `f32` resolution modelled
by its raw bit pattern), the power-management flag as `Bool`, and the
temperature and voltage readings as `Int`.
-/

/-- Value object from utils.rs (`struct AmdEnergyConsumptionInfo`). -/
structure AmdEnergyConsumptionInfo where
  energy : Nat
  resolution : Nat
  timestamp : Nat
deriving DecidableEq, Repr

/-- `ProcessorHandle::device_activity` (lib.rs lines 286-303). -/
def device_activity (status : Nat) (info : Nat) : Except AmdError Nat :=
  match check_status status with
  | .error e => Except.error e
  | .ok _ => Except.ok info

/-- `ProcessorHandle::device_energy_consumption` (lib.rs lines 306-327). -/
def device_energy_consumption (status : Nat)
    (written : AmdEnergyConsumptionInfo) :
    Except AmdError AmdEnergyConsumptionInfo :=
  match check_status status with
  | .error e => Except.error e
  | .ok _ => Except.ok written

/-- `ProcessorHandle::device_memory_usage` (lib.rs lines 330-344). -/
def device_memory_usage (memType : Nat) (status : Nat) (used : Nat) :
    Except AmdError Nat :=
  match check_status status with
  | .error e => Except.error e
  | .ok _ => Except.ok used

/-- `ProcessorHandle::device_power_consumption` (lib.rs lines 347-365). -/
def device_power_consumption (status : Nat) (info : Nat) :
    Except AmdError Nat :=
  match check_status status with
  | .error e => Except.error e
  | .ok _ => Except.ok info

/-- `ProcessorHandle::device_power_managment` (lib.rs lines 368-382). -/
def device_power_managment (status : Nat) (enabled : Bool) :
    Except AmdError Bool :=
  match check_status status with
  | .error e => Except.error e
  | .ok _ => Except.ok enabled

/-- `ProcessorHandle::device_temperature` (lib.rs lines 390-411). -/
def device_temperature (sensorType metric : Nat) (status : Nat)
    (temperature : Int) : Except AmdError Int :=
  match check_status status with
  | .error e => Except.error e
  | .ok _ => Except.ok temperature

/-- `ProcessorHandle::device_voltage` (lib.rs lines 419-441). -/
def device_voltage (sensorType metric : Nat) (status : Nat)
    (voltage : Int) : Except AmdError Int :=
  match check_status status with
  | .error e => Except.error e
  | .ok _ => Except.ok voltage

/-- Returned `Result` of `AmdInterface::stop` (lib.rs lines 103-109): the
native `amdsmi_shut_down` call returns a status, which is checked and
returned to the caller. The shutdown side effect of the same function on the
reference-counted lifecycle is modelled by `stopCall`. -/
def stop (status : Nat) : Except AmdError Unit :=
  check_status status

/-- Helper: one unfolding step of the growing-buffer loop. -/
theorem process_loop_cons (maxp calls : Nat) (r : ProcResponse)
    (rest : List ProcResponse) :
    process_loop maxp (r :: rest) calls =
      (if AmdStatus.fromRaw r.status = .Success then
        some (Except.ok (r.entries.take r.count), calls + 1)
      else if AmdStatus.fromRaw r.status = .OutOfResources then
        process_loop r.count rest (calls + 1)
      else
        some (Except.error (AmdError.mk (AmdStatus.fromRaw r.status)),
          calls + 1)) :=
  rfl

/-- Helper: on a non-success status the check yields exactly the error
carrying the converted status. -/
theorem check_status_error (status : Nat)
    (h : AmdStatus.fromRaw status ≠ .Success) :
    check_status status = Except.error (AmdError.mk (AmdStatus.fromRaw status)) := by
  simp [check_status, h]

/-- C9. Every operation that calls into the native library turns a native
status other than success into an error carrying that status normalized
through the taxonomy, without exposing the output storage: all eight
single-shot queries, the UUID retrieval, both phases of the two-call
enumerations, the probe and loop calls of `device_process_list` for any
status that is neither success nor out-of-resources, the `stop` call
checking the native shutdown status, and the native init call inside
`init`. The sole exception is the out-of-resources status inside the
growing-buffer protocol of `device_process_list`, which is consumed as a
retry signal, not returned as an error: an out-of-resources probe followed
by a successful fill completes successfully. -/
theorem nonsuccess_status_propagates_as_error (raw : Nat)
    (hraw : AmdStatus.fromRaw raw ≠ .Success)
    (lib v memType sensor metric energy res ts n len maxp calls c : Nat)
    (enabled : Bool) (reading : Int) (buffer entries tokens : List Nat)
    (probe : CountProbe) (fill : FillResponse) (sock : AmdSocketHandle)
    (rest : List ProcResponse)
    (hp : AmdStatus.fromRaw probe.status = .Success) :
    device_activity raw v = Except.error (AmdError.mk (AmdStatus.fromRaw raw)) ∧
    device_energy_consumption raw (AmdEnergyConsumptionInfo.mk energy res ts)
      = Except.error (AmdError.mk (AmdStatus.fromRaw raw)) ∧
    device_memory_usage memType raw v
      = Except.error (AmdError.mk (AmdStatus.fromRaw raw)) ∧
    device_power_consumption raw v
      = Except.error (AmdError.mk (AmdStatus.fromRaw raw)) ∧
    device_power_managment raw enabled
      = Except.error (AmdError.mk (AmdStatus.fromRaw raw)) ∧
    device_temperature sensor metric raw reading
      = Except.error (AmdError.mk (AmdStatus.fromRaw raw)) ∧
    device_voltage sensor metric raw reading
      = Except.error (AmdError.mk (AmdStatus.fromRaw raw)) ∧
    device_uuid raw buffer len
      = UuidOutcome.err (AmdError.mk (AmdStatus.fromRaw raw)) ∧
    socket_handles lib (CountProbe.mk raw n) fill
      = (Except.error (AmdError.mk (AmdStatus.fromRaw raw)), 1) ∧
    socket_handles lib probe (FillResponse.mk raw n tokens)
      = (Except.error (AmdError.mk (AmdStatus.fromRaw raw)), 2) ∧
    processor_handles sock (CountProbe.mk raw n) fill
      = (Except.error (AmdError.mk (AmdStatus.fromRaw raw)), 1) ∧
    processor_handles sock probe (FillResponse.mk raw n tokens)
      = (Except.error (AmdError.mk (AmdStatus.fromRaw raw)), 2) ∧
    (AmdStatus.fromRaw raw ≠ .OutOfResources →
      device_process_list (CountProbe.mk raw c) rest
        = some (Except.error (AmdError.mk (AmdStatus.fromRaw raw)), 1)) ∧
    (AmdStatus.fromRaw raw ≠ .OutOfResources →
      process_loop maxp (ProcResponse.mk raw c entries :: rest) calls
        = some (Except.error (AmdError.mk (AmdStatus.fromRaw raw)), calls + 1)) ∧
    (0 < c →
      device_process_list (CountProbe.mk CODE_OUT_OF_RESSOURCE c)
          (ProcResponse.mk CODE_SUCCESS n entries :: rest)
        = some (Except.ok (entries.take n), 2)) ∧
    process_loop maxp
        (ProcResponse.mk CODE_OUT_OF_RESSOURCE c [] ::
          ProcResponse.mk CODE_SUCCESS n entries :: rest) calls
      = some (Except.ok (entries.take n), calls + 2) ∧
    stop raw = Except.error (AmdError.mk (AmdStatus.fromRaw raw)) ∧
    amdSmiInit LoadResult.ok raw
      = Except.error (AmdInitError.Init (AmdError.mk (AmdStatus.fromRaw raw))) := by
  have hchk := check_status_error raw hraw
  refine ⟨?_, ?_, ?_, ?_, ?_, ?_, ?_, ?_, ?_, ?_, ?_, ?_, ?_, ?_, ?_, ?_, ?_, ?_⟩
  · simp [device_activity, hchk]
  · simp [device_energy_consumption, hchk]
  · simp [device_memory_usage, hchk]
  · simp [device_power_consumption, hchk]
  · simp [device_power_managment, hchk]
  · simp [device_temperature, hchk]
  · simp [device_voltage, hchk]
  · simp [device_uuid, hchk]
  · simp [socket_handles, hchk]
  · simp [socket_handles, check_status, hp, hraw]
  · simp [processor_handles, hchk]
  · simp [processor_handles, check_status, hp, hraw]
  · intro hoor
    have hors : ¬ (AmdStatus.fromRaw raw = .Success ∨
        AmdStatus.fromRaw raw = .OutOfResources) := by
      simp [hraw, hoor]
    simp [device_process_list, hors]
  · intro hoor
    simp [process_loop, hraw, hoor]
  · intro hc
    have hne : c ≠ 0 := Nat.pos_iff_ne_zero.mp hc
    simp [device_process_list, process_loop, hne,
      show AmdStatus.fromRaw CODE_OUT_OF_RESSOURCE = .OutOfResources from rfl,
      show AmdStatus.fromRaw CODE_SUCCESS = .Success from rfl]
  · rw [process_loop_cons]
    simp only [show AmdStatus.fromRaw CODE_OUT_OF_RESSOURCE = .OutOfResources
      from rfl]
    rw [process_loop_cons]
    simp [Nat.add_assoc,
      show AmdStatus.fromRaw CODE_SUCCESS = .Success from rfl]
  · exact hchk
  · simp [amdSmiInit, hchk]

/-- Witness for C9: instantiating conjuncts at the timeout status code
(which converts to the generic unknown error), with concrete payloads and a
successful sizing probe, including the stop and init conjuncts. -/
theorem nonsuccess_status_propagates_as_error_witness :
    device_activity CODE_TIMEOUT 5
      = Except.error (AmdError.mk AmdStatus.UnknownError) ∧
    device_memory_usage 1 CODE_TIMEOUT 5
      = Except.error (AmdError.mk AmdStatus.UnknownError) ∧
    socket_handles 7 (CountProbe.mk CODE_TIMEOUT 2)
        (FillResponse.mk CODE_SUCCESS 2 [4, 5])
      = (Except.error (AmdError.mk AmdStatus.UnknownError), 1) ∧
    device_process_list (CountProbe.mk CODE_OUT_OF_RESSOURCE 1)
        [ProcResponse.mk CODE_SUCCESS 1 [3]]
      = some (Except.ok [3], 2) ∧
    stop CODE_TIMEOUT = Except.error (AmdError.mk AmdStatus.UnknownError) ∧
    amdSmiInit LoadResult.ok CODE_TIMEOUT
      = Except.error (AmdInitError.Init (AmdError.mk AmdStatus.UnknownError)) := by
  have h := nonsuccess_status_propagates_as_error CODE_TIMEOUT (by decide)
    7 5 1 0 0 0 0 0 2 3 4 1 1 true 0 [] [3] [4, 5]
    (CountProbe.mk CODE_SUCCESS 2) (FillResponse.mk CODE_SUCCESS 2 [4, 5])
    (AmdSocketHandle.mk 7 1) [] (by decide)
  exact ⟨h.1, h.2.2.1, h.2.2.2.2.2.2.2.2.1,
    by simpa using h.2.2.2.2.2.2.2.2.2.2.2.2.2.2.1 (by decide),
    h.2.2.2.2.2.2.2.2.2.2.2.2.2.2.2.2.1,
    h.2.2.2.2.2.2.2.2.2.2.2.2.2.2.2.2.2⟩

end AmdSmiWrapper
